import Mathlib

/-!
Shallow embedding of `cvhelper/image_operations.py` (repository
`frankier/opencv_wrapper`) and proofs about it.

The module is a thin wrapper over OpenCV: every numerically significant
operation is delegated to the external library.  The external primitives
(`cv.dilate`, `cv.threshold`, `cv.warpAffine`, ...) are therefore kept
abstract: they are fields of a record `Cv`, and the wrapper functions are
parameterised by such a record.  Numpy arrays are modelled by nested lists
tagged with their number of dimensions; Python `None` arguments by
`Option`; raised exceptions by `Except`.  Mutable numpy arrays shared
between `Contour` objects are modelled by a small explicit heap.
-/

set_option autoImplicit false

namespace cvhelper

/-- A Python exception raised by the wrapper code. -/
inductive PyErr where
  | valueError (msg : String)
  | typeError (msg : String)
  | indexError (msg : String)
  deriving DecidableEq, Repr

/-- A numpy `ndarray`, classified by its number of dimensions — the wrapper
only ever dispatches on `ndim` and on `size`.  `d1` is a 1-dimensional
array, `d2` a 2-dimensional image (a list of rows), `d3` a 3-dimensional
image (rows of pixels, each pixel a list of channel values), and `dhi n s`
stands for an array of dimension `n + 4` with `s` elements. -/
inductive NDImage (α : Type) where
  | d1 (data : List α)
  | d2 (img : List (List α))
  | d3 (img : List (List (List α)))
  | dhi (ndim4 : Nat) (elems : Nat)
  deriving DecidableEq, Repr

/-- `ndarray.ndim`: the number of dimensions. -/
def NDImage.ndim {α : Type} : NDImage α → Nat
  | .d1 _ => 1
  | .d2 _ => 2
  | .d3 _ => 3
  | .dhi n _ => n + 4

/-- `ndarray.size`: the total number of elements. -/
def NDImage.size {α : Type} : NDImage α → Nat
  | .d1 l => l.length
  | .d2 img => (img.map List.length).sum
  | .d3 img => (img.map (fun row => (row.map List.length).sum)).sum
  | .dhi _ s => s

/-- `np.zeros_like`: an array of the same shape filled with zeros. -/
def zerosLike {α : Type} [Zero α] : NDImage α → NDImage α
  | .d1 l => .d1 (l.map fun _ => 0)
  | .d2 img => .d2 (img.map fun row => row.map fun _ => 0)
  | .d3 img => .d3 (img.map fun row => row.map fun px => px.map fun _ => 0)
  | .dhi n s => .dhi n s

/-- The OpenCV constant `cv.MORPH_RECT`. -/
def MORPH_RECT : Nat := 0
/-- The OpenCV constant `cv.MORPH_CROSS`. -/
def MORPH_CROSS : Nat := 1
/-- The OpenCV constant `cv.MORPH_OPEN`. -/
def MORPH_OPEN : Nat := 2
/-- The OpenCV constant `cv.MORPH_CLOSE`. -/
def MORPH_CLOSE : Nat := 3
/-- The OpenCV constant `cv.NORM_MINMAX`. -/
def NORM_MINMAX : Nat := 32
/-- The OpenCV constant `cv.INTER_CUBIC`. -/
def INTER_CUBIC : Nat := 2
/-- The OpenCV constant `cv.COLOR_BGR2GRAY`. -/
def COLOR_BGR2GRAY : Nat := 6
/-- The OpenCV constant `cv.COLOR_BGR2HSV`. -/
def COLOR_BGR2HSV : Nat := 40
/-- The OpenCV constant `cv.COLOR_BGR2XYZ`. -/
def COLOR_BGR2XYZ : Nat := 32
/-- The OpenCV constant `cv.COLOR_BGR2HLS`. -/
def COLOR_BGR2HLS : Nat := 52
/-- The OpenCV constant `cv.COLOR_BGR2LUV`. -/
def COLOR_BGR2LUV : Nat := 50
/-- The OpenCV constant `cv.THRESH_BINARY`. -/
def THRESH_BINARY : Nat := 0
/-- The OpenCV constant `cv.THRESH_TOZERO`. -/
def THRESH_TOZERO : Nat := 3
/-- The OpenCV constant `cv.THRESH_OTSU`. -/
def THRESH_OTSU : Nat := 8

/-- The `MorphShape` enum of `image_operations.py`. -/
inductive MorphShape where
  | RECT
  | CROSS
  deriving DecidableEq, Repr

/-- `MorphShape.value`: the underlying OpenCV constant of the enum member. -/
def MorphShape.value : MorphShape → Nat
  | .RECT => MORPH_RECT
  | .CROSS => MORPH_CROSS

/-- The `AngleUnit` enum of `image_operations.py`. -/
inductive AngleUnit where
  | RADIANS
  | DEGREES
  deriving DecidableEq, Repr

/-- The external OpenCV primitives used by `image_operations.py`, kept
abstract.  `α` is the scalar (pixel / coordinate) type; `Elem` the type of
structuring elements; `RotM` the type of 2×3 rotation matrices.  Python
floats that only get forwarded are modelled by `Rat`; the radians-to-degrees
conversion `180 / np.pi * angle` is a floating-point computation and is kept
abstract as `radToDeg`. -/
structure Cv (α : Type) (Elem : Type) (RotM : Type) where
  getStructuringElement : Nat → Int × Int → Elem
  dilate : NDImage α → Elem → NDImage α
  morphologyEx : NDImage α → Nat → Elem → Nat → NDImage α
  /-- `cv.normalize(src, dst, alpha, beta, norm_type)`; for `NORM_MINMAX`
  OpenCV documents `alpha` as the lower and `beta` as the upper range
  boundary (internally it uses `min(alpha, beta)` and `max(alpha, beta)`).
  Returns the filled destination array. -/
  normalize : NDImage α → NDImage α → Int → Int → Nat → NDImage α
  /-- `cv.resize(src, dsize, fx, fy, interpolation)`. -/
  resize : NDImage α → Option (Nat × Nat) → Rat → Rat → Nat → NDImage α
  cvtColor : NDImage α → Nat → NDImage α
  GaussianBlur : NDImage α → Int × Int → Rat → Rat → NDImage α
  medianBlur : NDImage α → Int → NDImage α
  /-- `cv.threshold(src, thresh, maxval, type)` returns `(retval, dst)`. -/
  threshold : NDImage α → Int → Int → Nat → Rat × NDImage α
  Canny : NDImage α → Rat → Rat → Bool → NDImage α
  /-- The floating-point computation `180 / np.pi * angle`. -/
  radToDeg : Rat → Rat
  getRotationMatrix2D : Rat × Rat → Rat → Rat → RotM
  /-- `cv.warpAffine(src, M, dsize)` where `dsize = (width, height)`. -/
  warpAffine : List (List α) → RotM → Nat × Nat → List (List α)
  /-- `cv.moments(points)`: the moment dictionary of a points array. -/
  moments : List (List (List α)) → String → Rat

/-- `_error_if_image_empty(image)`: raises `ValueError("Image is empty")`
when the image is `None` or has size 0. -/
def _error_if_image_empty {α : Type} (image : Option (NDImage α)) : Except PyErr Unit :=
  match image with
  | none => .error (.valueError "Image is empty")
  | some img => if img.size = 0 then .error (.valueError "Image is empty") else .ok ()

/-- `dilate(image, kernel_size, shape)`. -/
def dilate {α Elem RotM : Type} (cv : Cv α Elem RotM) (image : Option (NDImage α))
    (kernel_size : Int) (shape : MorphShape) : Except PyErr (NDImage α) := do
  _error_if_image_empty image
  match image with
  | some img =>
      pure (cv.dilate img (cv.getStructuringElement shape.value (kernel_size, kernel_size)))
  | none => throw (.valueError "Image is empty")

/-- `morph_open(image, size, iterations)`. -/
def morph_open {α Elem RotM : Type} (cv : Cv α Elem RotM) (image : Option (NDImage α))
    (size : Int) (iterations : Nat) : Except PyErr (NDImage α) := do
  _error_if_image_empty image
  match image with
  | some img =>
      pure (cv.morphologyEx img MORPH_OPEN
        (cv.getStructuringElement MORPH_RECT (size, size)) iterations)
  | none => throw (.valueError "Image is empty")

/-- `morph_close(image, size, iterations)`. -/
def morph_close {α Elem RotM : Type} (cv : Cv α Elem RotM) (image : Option (NDImage α))
    (size : Int) (iterations : Nat) : Except PyErr (NDImage α) := do
  _error_if_image_empty image
  match image with
  | some img =>
      pure (cv.morphologyEx img MORPH_CLOSE
        (cv.getStructuringElement MORPH_RECT (size, size)) iterations)
  | none => throw (.valueError "Image is empty")

/-- `normalize(image, min, max)`: allocates `normalized = np.zeros_like(image)`,
calls `cv.normalize(image, normalized, max, min, cv.NORM_MINMAX)` — note the
argument order: `max` is passed in the `alpha` position and `min` in the
`beta` position — and returns `normalized`. -/
def normalize {α Elem RotM : Type} [Zero α] (cv : Cv α Elem RotM)
    (image : Option (NDImage α)) (min max : Int) : Except PyErr (NDImage α) := do
  _error_if_image_empty image
  match image with
  | some img =>
      let normalized := zerosLike img
      let normalized := cv.normalize img normalized max min NORM_MINMAX
      pure normalized
  | none => throw (.valueError "Image is empty")

/-- `resize(image, factor)`. -/
def resize {α Elem RotM : Type} (cv : Cv α Elem RotM) (image : Option (NDImage α))
    (factor : Int) : Except PyErr (NDImage α) := do
  _error_if_image_empty image
  match image with
  | some img =>
      pure (cv.resize img none (1 / (factor : Rat)) (1 / (factor : Rat)) INTER_CUBIC)
  | none => throw (.valueError "Image is empty")

/-- `bgr2gray(image)`. -/
def bgr2gray {α Elem RotM : Type} (cv : Cv α Elem RotM) (image : Option (NDImage α)) :
    Except PyErr (NDImage α) := do
  _error_if_image_empty image
  match image with
  | some img => pure (cv.cvtColor img COLOR_BGR2GRAY)
  | none => throw (.valueError "Image is empty")

/-- `bgr2hsv(image)`. -/
def bgr2hsv {α Elem RotM : Type} (cv : Cv α Elem RotM) (image : Option (NDImage α)) :
    Except PyErr (NDImage α) := do
  _error_if_image_empty image
  match image with
  | some img => pure (cv.cvtColor img COLOR_BGR2HSV)
  | none => throw (.valueError "Image is empty")

/-- `bgr2xyz(image)`. -/
def bgr2xyz {α Elem RotM : Type} (cv : Cv α Elem RotM) (image : Option (NDImage α)) :
    Except PyErr (NDImage α) := do
  _error_if_image_empty image
  match image with
  | some img => pure (cv.cvtColor img COLOR_BGR2XYZ)
  | none => throw (.valueError "Image is empty")

/-- `bgr2hls(image)`. -/
def bgr2hls {α Elem RotM : Type} (cv : Cv α Elem RotM) (image : Option (NDImage α)) :
    Except PyErr (NDImage α) := do
  _error_if_image_empty image
  match image with
  | some img => pure (cv.cvtColor img COLOR_BGR2HLS)
  | none => throw (.valueError "Image is empty")

/-- `bgr2luv(image)`. -/
def bgr2luv {α Elem RotM : Type} (cv : Cv α Elem RotM) (image : Option (NDImage α)) :
    Except PyErr (NDImage α) := do
  _error_if_image_empty image
  match image with
  | some img => pure (cv.cvtColor img COLOR_BGR2LUV)
  | none => throw (.valueError "Image is empty")

/-- `blur_gaussian(image, kernel_size, sigma_x, sigma_y)`. -/
def blur_gaussian {α Elem RotM : Type} (cv : Cv α Elem RotM) (image : Option (NDImage α))
    (kernel_size : Int) (sigma_x sigma_y : Option Rat) : Except PyErr (NDImage α) := do
  _error_if_image_empty image
  let sigma_x := match sigma_x with
    | none => (0 : Rat)
    | some s => s
  let sigma_y := match sigma_y with
    | none => (0 : Rat)
    | some s => s
  match image with
  | some img => pure (cv.GaussianBlur img (kernel_size, kernel_size) sigma_x sigma_y)
  | none => throw (.valueError "Image is empty")

/-- `blur_median(image, kernel_size)`. -/
def blur_median {α Elem RotM : Type} (cv : Cv α Elem RotM) (image : Option (NDImage α))
    (kernel_size : Int) : Except PyErr (NDImage α) := do
  _error_if_image_empty image
  match image with
  | some img => pure (cv.medianBlur img kernel_size)
  | none => throw (.valueError "Image is empty")

/-- `threshold_otsu(image, max_value)`. -/
def threshold_otsu {α Elem RotM : Type} (cv : Cv α Elem RotM) (image : Option (NDImage α))
    (max_value : Int) : Except PyErr (NDImage α) := do
  _error_if_image_empty image
  match image with
  | some img => pure (cv.threshold img 0 max_value (THRESH_BINARY + THRESH_OTSU)).2
  | none => throw (.valueError "Image is empty")

/-- `threshold_binary(image, value, max_value)`. -/
def threshold_binary {α Elem RotM : Type} (cv : Cv α Elem RotM) (image : Option (NDImage α))
    (value : Int) (max_value : Int) : Except PyErr (NDImage α) := do
  _error_if_image_empty image
  match image with
  | some img => pure (cv.threshold img value max_value THRESH_BINARY).2
  | none => throw (.valueError "Image is empty")

/-- `threshold_tozero(image, value, max_value)`. -/
def threshold_tozero {α Elem RotM : Type} (cv : Cv α Elem RotM) (image : Option (NDImage α))
    (value : Int) (max_value : Int) : Except PyErr (NDImage α) := do
  _error_if_image_empty image
  match image with
  | some img => pure (cv.threshold img value max_value THRESH_TOZERO).2
  | none => throw (.valueError "Image is empty")

/-- `threshold_otsu_tozero(image, max_value)`. -/
def threshold_otsu_tozero {α Elem RotM : Type} (cv : Cv α Elem RotM)
    (image : Option (NDImage α)) (max_value : Int) : Except PyErr (NDImage α) := do
  _error_if_image_empty image
  match image with
  | some img => pure (cv.threshold img 0 max_value (THRESH_OTSU ||| THRESH_TOZERO)).2
  | none => throw (.valueError "Image is empty")

/-- `canny(image, low_threshold, high_threshold)`. -/
def canny {α Elem RotM : Type} (cv : Cv α Elem RotM) (image : Option (NDImage α))
    (low_threshold high_threshold : Rat) : Except PyErr (NDImage α) := do
  _error_if_image_empty image
  match image with
  | some img => pure (cv.Canny img low_threshold high_threshold true)
  | none => throw (.valueError "Image is empty")

/-- Modelled from the spec: the `Point` value object from `cvhelper.model`
(whose source file is absent); a 2-d point with coordinates `x` and `y`,
whose tuple conversion `(*point,)` yields `(x, y)`. -/
structure Point where
  x : Rat
  y : Rat
  deriving DecidableEq, Repr

/-- Modelled from the spec: the `Rect` value object from `cvhelper.model`
(whose source file is absent); only its `x` and `y` fields — the rectangle
origin — are used by `image_operations.py`. -/
structure Rect (α : Type) where
  x : α
  y : α
  deriving DecidableEq, Repr

/-- A contour points array as returned by `cv.findContour`, of shape
`N × 1 × 2`: one row per point, each row holding one `[x, y]` pair. -/
abbrev Points (α : Type) : Type := List (List (List α))

/-- The Python heap for numpy points arrays: numpy arrays are mutable and
shared between the `Contour` objects holding them, so `Contour` stores a
reference (a `Nat` address) and the operations thread this heap. -/
abbrev Heap (α : Type) : Type := Nat → Points α

/-- Read the array at reference `r`. -/
def Heap.get {α : Type} (σ : Heap α) (r : Nat) : Points α := σ r

/-- Overwrite the array at reference `r`. -/
def Heap.set {α : Type} (σ : Heap α) (r : Nat) (pts : Points α) : Heap α :=
  fun j => if j = r then pts else σ j

/-- The `Contour` wrapper object: a reference to its (shared, mutable)
points array, its moment dictionary (a Python `dict` modelled as a total
map from keys), and the cached `area`. -/
structure Contour where
  points : Nat
  moment : String → Rat
  area : Rat

/-- `Contour.__init__(points, moment)`: keeps the given points array (by
reference), computes the moments with `cv.moments(points)` when
`moment is None`, and caches `moment["m00"]` as `area`. -/
def Contour.make {α Elem RotM : Type} (cv : Cv α Elem RotM) (σ : Heap α) (points : Nat)
    (moment : Option (String → Rat)) : Contour :=
  let moment := match moment with
    | none => cv.moments (σ.get points)
    | some m => m
  { points := points, moment := moment, area := moment "m00" }

/-- `Contour.__len__`: `len(self.points)`. -/
def Contour.len {α : Type} (σ : Heap α) (c : Contour) : Nat :=
  (σ.get c.points).length

/-- An index key passed to `Contour.__getitem__` / `__setitem__`: either a
Python `int` or a tuple of indices. -/
inductive Key where
  | int (k : Nat)
  | tup (key : List Nat)
  deriving DecidableEq, Repr

/-- A value assigned through `Contour.__setitem__`: a scalar (numpy
broadcasts it over the target slice) or an array of values. -/
inductive Value (α : Type) where
  | scalar (a : α)
  | vec (l : List α)
  deriving DecidableEq, Repr

/-- The result of `Contour.__getitem__`: the integer branch returns a whole
point (`points[key, 0]`, shape `(2,)`), the tuple branch a single scalar. -/
inductive ItemVal (α : Type) where
  | row (p : List α)
  | elt (a : α)
  deriving DecidableEq, Repr

/-- `points[k, 0]`: row `k` of the points array; numpy raises `IndexError`
when an index is out of bounds. -/
def getRow {α : Type} (pts : Points α) (k : Nat) : Except PyErr (List α) :=
  match pts[k]? with
  | none => .error (.indexError "index out of bounds")
  | some row =>
    match row[0]? with
    | none => .error (.indexError "index out of bounds")
    | some p => .ok p

/-- `points[i, 0, j]`: a single scalar of the points array. -/
def getElt {α : Type} (pts : Points α) (i j : Nat) : Except PyErr α :=
  match pts[i]? with
  | none => .error (.indexError "index out of bounds")
  | some row =>
    match row[0]? with
    | none => .error (.indexError "index out of bounds")
    | some p =>
      match p[j]? with
      | none => .error (.indexError "index out of bounds")
      | some a => .ok a

/-- Numpy broadcast of an assigned value over a 1-d slice: a scalar or a
length-1 array fills every slot, an array of matching length replaces the
slice elementwise, and any other length fails the broadcast-shape check
with `ValueError` (and no write happens). -/
def assignRow {α : Type} (old : List α) : Value α → Except PyErr (List α)
  | .scalar a => .ok (old.map fun _ => a)
  | .vec [a] => .ok (old.map fun _ => a)
  | .vec l =>
    if l.length = old.length then .ok l
    else .error (.valueError "could not broadcast input array")

/-- `points[k, 0] = value` (with numpy broadcast): a failed broadcast
raises before anything is written. -/
def setRow {α : Type} (pts : Points α) (k : Nat) (v : Value α) :
    Except PyErr (Points α) :=
  match pts[k]? with
  | none => .error (.indexError "index out of bounds")
  | some row =>
    match row[0]? with
    | none => .error (.indexError "index out of bounds")
    | some p =>
      match assignRow p v with
      | .error e => .error e
      | .ok newp => .ok (pts.set k (row.set 0 newp))

/-- `points[i, 0, j] = value`: a scalar slot only accepts a scalar. -/
def setElt {α : Type} (pts : Points α) (i j : Nat) (v : Value α) :
    Except PyErr (Points α) :=
  match v with
  | .vec _ => .error (.valueError "setting an array element with a sequence")
  | .scalar a =>
    match pts[i]? with
    | none => .error (.indexError "index out of bounds")
    | some row =>
      match row[0]? with
      | none => .error (.indexError "index out of bounds")
      | some p =>
        match p[j]? with
        | none => .error (.indexError "index out of bounds")
        | some _ => .ok (pts.set i (row.set 0 (p.set j a)))

/-- The tuple branch of `Contour.__getitem__`: `if len(key) > 2:` raise
`ValueError`, else `return self.points[key[0], 0, key[1]]` (evaluating
`key[0]` and `key[1]` raises `IndexError` on a too-short tuple). -/
def getTup {α : Type} (pts : Points α) (key : List Nat) : Except PyErr α :=
  if key.length > 2 then
    .error (.valueError ("Too many indices: " ++ toString key.length))
  else
    match key[0]?, key[1]? with
    | some k0, some k1 => getElt pts k0 k1
    | _, _ => .error (.indexError "tuple index out of range")

/-- `Contour.__getitem__` acting on the contour's points array: the integer
branch returns `self.points[key, 0]`, the tuple branch goes through
`getTup`. -/
def getItemPts {α : Type} (pts : Points α) : Key → Except PyErr (ItemVal α)
  | .int k => (getRow pts k).map .row
  | .tup key => (getTup pts key).map .elt

/-- The tuple branch of `Contour.__setitem__`: length check, then
`self.points[key[0], 0, key[1]] = value`.  Returns the (possibly mutated)
array together with the raised exception, if any. -/
def setTup {α : Type} (pts : Points α) (key : List Nat) (v : Value α) :
    Points α × Except PyErr Unit :=
  if key.length > 2 then
    (pts, .error (.valueError ("Too many indices: " ++ toString key.length)))
  else
    match key[0]?, key[1]? with
    | some k0, some k1 =>
      match setElt pts k0 k1 v with
      | .error e => (pts, .error e)
      | .ok pts2 => (pts2, .ok ())
    | _, _ => (pts, .error (.indexError "tuple index out of range"))

/-- `Contour.__setitem__` acting on the points array.  The integer branch
is missing a `return`: after `self.points[key, 0] = value` the code falls
through to `if len(key) > 2`, and `len` of an `int` raises `TypeError` —
so a successful integer-key assignment mutates the array and then raises;
when the numpy assignment itself raises (bad index or failed broadcast),
that error propagates instead and nothing is written. -/
def setItemPts {α : Type} (pts : Points α) : Key → Value α → Points α × Except PyErr Unit
  | .int k, v =>
    match setRow pts k v with
    | .error e => (pts, .error e)
    | .ok pts2 => (pts2, .error (.typeError "object of type int has no len()"))
  | .tup key, v => setTup pts key v

/-- `Contour.__getitem__` through the heap. -/
def Contour.getItem {α : Type} (σ : Heap α) (c : Contour) (key : Key) :
    Except PyErr (ItemVal α) :=
  getItemPts (σ.get c.points) key

/-- `Contour.__setitem__` through the heap: the contour's array is read,
mutated, and stored back at the same reference. -/
def Contour.setItem {α : Type} (σ : Heap α) (c : Contour) (key : Key) (v : Value α) :
    Heap α × Except PyErr Unit :=
  let r := setItemPts (σ.get c.points) key v
  (σ.set c.points r.1, r.2)

/-- One iteration of the loop in `scale_contour_to_rect`:
`contour[i, 0] = contour[i, 0] - rect.x` followed by
`contour[i, 1] = contour[i, 1] - rect.y`.  The reads `contour[i, 0]` and
`contour[i, 1]` take the tuple branch of `__getitem__` (`getTup`). -/
def scaleStep {α : Type} [Sub α] (rect : Rect α) (c : Contour) (σ : Heap α) (i : Nat) :
    Except PyErr (Heap α) := do
  let vx ← getTup (σ.get c.points) [i, 0]
  let r1 := Contour.setItem σ c (.tup [i, 0]) (.scalar (vx - rect.x))
  let σ := r1.1
  let _ ← r1.2
  let vy ← getTup (σ.get c.points) [i, 1]
  let r2 := Contour.setItem σ c (.tup [i, 1]) (.scalar (vy - rect.y))
  let _ ← r2.2
  pure r2.1

/-- The `for i in range(len(contour))` loop of `scale_contour_to_rect`,
over an explicit list of indices. -/
def scaleLoop {α : Type} [Sub α] (rect : Rect α) (c : Contour) :
    List Nat → Heap α → Except PyErr (Heap α)
  | [], σ => .ok σ
  | i :: rest, σ => do
    let σ2 ← scaleStep rect c σ i
    scaleLoop rect c rest σ2

/-- `scale_contour_to_rect(contour, rect)`: rebinds `contour` to
`Contour(contour.points, contour.moment)` — a new wrapper around the *same*
points array — then translates every point in place by
`(-rect.x, -rect.y)` and returns the new wrapper. -/
def scale_contour_to_rect {α Elem RotM : Type} [Sub α] (cv : Cv α Elem RotM)
    (σ : Heap α) (contour : Contour) (rect : Rect α) :
    Except PyErr (Heap α × Contour) := do
  let contour := Contour.make cv σ contour.points (some contour.moment)
  let σ2 ← scaleLoop rect contour (List.range (Contour.len σ contour)) σ
  pure (σ2, contour)

/-- Number of rows of a 2-d array (`shape[0]`). -/
def rows2 {α : Type} (img : List (List α)) : Nat := img.length

/-- Number of columns of a 2-d array (`shape[1]`); numpy arrays are
rectangular, so it is read off the first row. -/
def cols2 {α : Type} (img : List (List α)) : Nat := (img.headD []).length

/-- Number of rows of a 3-d image (`shape[0]`). -/
def rows3 {α : Type} (img : List (List (List α))) : Nat := img.length

/-- Number of columns of a 3-d image (`shape[1]`). -/
def cols3 {α : Type} (img : List (List (List α))) : Nat := (img.headD []).length

/-- Number of channels of a 3-d image (`shape[2]`, i.e. `shape[-1]`). -/
def chans3 {α : Type} (img : List (List (List α))) : Nat :=
  ((img.headD []).headD []).length

/-- `np.zeros_like` on the payload of a 3-d image. -/
def zeros3 {α : Type} [Zero α] (img : List (List (List α))) : List (List (List α)) :=
  img.map fun row => row.map fun px => px.map fun _ => 0

/-- `image[..., i]`: channel `i` of a 3-d image, as a 2-d image. -/
def channel {α : Type} [Zero α] (img : List (List (List α))) (i : Nat) :
    List (List α) :=
  img.map fun row => row.map fun px => px.getD i 0

/-- `copy[..., i] = ch`: write the 2-d image `ch` into channel `i` of
`copy` (shapes must agree, as numpy requires). -/
def setChannel {α : Type} (copy : List (List (List α))) (i : Nat) (ch : List (List α)) :
    List (List (List α)) :=
  (copy.zip ch).map fun rc => (rc.1.zip rc.2).map fun pv => pv.1.set i pv.2

/-- `rotate_image(image, center, angle, scale, unit)`: converts a radian
angle to degrees, builds one rotation matrix, and warps — the whole image
when it is 2-dimensional, channel by channel into a zero-initialised copy
when it is 3-dimensional; any other dimensionality raises `ValueError`. -/
def rotate_image {α Elem RotM : Type} [Zero α] (cv : Cv α Elem RotM) (image : NDImage α)
    (center : Point) (angle : Rat) (scale : Rat) (unit : AngleUnit) :
    Except PyErr (NDImage α) :=
  let angle := if unit = AngleUnit.RADIANS then cv.radToDeg angle else angle
  let rotation_matrix := cv.getRotationMatrix2D (center.x, center.y) angle scale
  match image with
  | .d2 img =>
    .ok (.d2 (cv.warpAffine img rotation_matrix (cols2 img, rows2 img)))
  | .d3 img =>
    let copy := zeros3 img
    let shape := (cols3 img, rows3 img)
    .ok (.d3 ((List.range (chans3 copy)).foldl
      (fun copy i => setChannel copy i (cv.warpAffine (channel img i) rotation_matrix shape))
      copy))
  | .d1 _ => .error (.valueError "Image must have 2 or 3 dimensions.")
  | .dhi _ _ => .error (.valueError "Image must have 2 or 3 dimensions.")

/-- A concrete instantiation of the primitive record over `Int` scalars,
used to evaluate the wrappers on closed inputs.  Its `normalize` records the
`alpha` and `beta` arguments in order, and its `warpAffine` returns an
array of the requested destination size. -/
def cv0 : Cv Int Unit Unit where
  getStructuringElement := fun _ _ => ()
  dilate := fun img _ => img
  morphologyEx := fun img _ _ _ => img
  normalize := fun _ _ a b _ => .d1 [a, b]
  resize := fun img _ _ _ _ => img
  cvtColor := fun img _ => img
  GaussianBlur := fun img _ _ _ => img
  medianBlur := fun img _ => img
  threshold := fun img _ _ _ => (0, img)
  Canny := fun img _ _ _ => img
  radToDeg := fun a => a
  getRotationMatrix2D := fun _ _ _ => ()
  warpAffine := fun _ _ wh => List.replicate wh.2 (List.replicate wh.1 0)
  moments := fun _ _ => 0

/-- Sequencing after a raised exception propagates the exception. -/
@[simp] theorem except_bind_error {ε β γ : Type} (e : ε) (f : β → Except ε γ) :
    (Except.error e >>= f) = Except.error e := rfl

/-- Sequencing after a normal result applies the continuation. -/
@[simp] theorem except_bind_ok {ε β γ : Type} (a : β) (f : β → Except ε γ) :
    (Except.ok a >>= f) = f a := rfl

/-- Mapping over a normal result applies the function. -/
@[simp] theorem except_map_ok {ε β γ : Type} (f : β → γ) (a : β) :
    Except.map f (Except.ok a : Except ε β) = Except.ok (f a) := rfl

/-- Mapping over a raised exception propagates the exception. -/
@[simp] theorem except_map_error {ε β γ : Type} (f : β → γ) (e : ε) :
    Except.map f (Except.error e : Except ε β) = Except.error e := rfl

/-- C3: for every non-empty image, every kernel size and every shape,
`dilate(image, kernel_size, shape)` returns exactly `cv.dilate` applied to
the image with the structuring element of the given shape and size
`(kernel_size, kernel_size)`, with no further transformation. -/
theorem dilate_spec {α Elem RotM : Type} (cv : Cv α Elem RotM) (img : NDImage α)
    (kernel_size : Int) (shape : MorphShape) (h : img.size ≠ 0) :
    dilate cv (some img) kernel_size shape =
      .ok (cv.dilate img
        (cv.getStructuringElement shape.value (kernel_size, kernel_size))) := by
  simp [dilate, _error_if_image_empty, h]

/-- Witness for C3 at a concrete input. -/
theorem dilate_spec_witness :
    dilate cv0 (some (NDImage.d1 [5])) 3 MorphShape.CROSS =
      .ok (cv0.dilate (NDImage.d1 [5])
        (cv0.getStructuringElement MorphShape.CROSS.value (3, 3))) :=
  dilate_spec cv0 (NDImage.d1 [5]) 3 MorphShape.CROSS (by decide)

/-- C4: for every non-empty image and every `max_value`, `threshold_otsu`
forwards threshold `0`, `max_value` and the combined
`THRESH_BINARY + THRESH_OTSU` flag into `cv.threshold` and returns the
primitive's resulting image. -/
theorem threshold_otsu_spec {α Elem RotM : Type} (cv : Cv α Elem RotM) (img : NDImage α)
    (max_value : Int) (h : img.size ≠ 0) :
    threshold_otsu cv (some img) max_value =
      .ok (cv.threshold img 0 max_value (THRESH_BINARY + THRESH_OTSU)).2 := by
  simp [threshold_otsu, _error_if_image_empty, h]

/-- Witness for C4 at a concrete input. -/
theorem threshold_otsu_spec_witness :
    threshold_otsu cv0 (some (NDImage.d1 [7])) 255 =
      .ok (cv0.threshold (NDImage.d1 [7]) 0 255 (THRESH_BINARY + THRESH_OTSU)).2 :=
  threshold_otsu_spec cv0 (NDImage.d1 [7]) 255 (by decide)

/-- C5 counterexample: `normalize` does *not* forward `min` into the
lower-bound (`alpha`) slot and `max` into the upper-bound (`beta`) slot of
`cv.normalize`: at a primitive that records its `alpha` and `beta`
arguments, the wrapper's result differs from that claimed call. -/
theorem normalize_claim_counterexample :
    normalize cv0 (some (NDImage.d1 [7])) 0 255 ≠
      .ok (cv0.normalize (NDImage.d1 [7]) (zerosLike (NDImage.d1 [7])) 0 255
        NORM_MINMAX) := by
  simp [normalize, _error_if_image_empty, cv0, zerosLike, NDImage.size]

/-- C5 (amended): for every non-empty image and bounds, `normalize` calls
`cv.normalize(image, zeros_like(image), max, min, NORM_MINMAX)` — `max` in
the `alpha` (documented lower-boundary) position and `min` in the `beta`
(upper-boundary) position — and returns the filled destination buffer,
leaving the input image unchanged. -/
theorem normalize_spec {α Elem RotM : Type} [Zero α] (cv : Cv α Elem RotM)
    (img : NDImage α) (min max : Int) (h : img.size ≠ 0) :
    normalize cv (some img) min max =
      .ok (cv.normalize img (zerosLike img) max min NORM_MINMAX) := by
  simp [normalize, _error_if_image_empty, h]

/-- Witness for the amended C5 at a concrete input. -/
theorem normalize_spec_witness :
    normalize cv0 (some (NDImage.d1 [7])) 0 255 =
      .ok (cv0.normalize (NDImage.d1 [7]) (zerosLike (NDImage.d1 [7])) 255 0
        NORM_MINMAX) :=
  normalize_spec cv0 (NDImage.d1 [7]) 0 255 (by decide)

/-- C8: every image operation that takes an image argument except
`rotate_image` raises `ValueError("Image is empty")` when the image is
`None` or has size 0 (the result is the error, for any behaviour of the
external primitives), while `rotate_image` performs no emptiness check: on
an empty 2-d image it succeeds and returns the warp of the empty image. -/
theorem empty_image_guard {α Elem RotM : Type} [Zero α] (cv : Cv α Elem RotM)
    (img : NDImage α) (h : img.size = 0) (kernel_size : Int) (shape : MorphShape)
    (size : Int) (iterations : Nat) (mn mx : Int) (factor : Int)
    (sigma_x sigma_y : Option Rat) (value : Int) (max_value : Int)
    (low high : Rat) (center : Point) (angle scale : Rat) (unit : AngleUnit) :
    (dilate cv none kernel_size shape = .error (.valueError "Image is empty") ∧
      dilate cv (some img) kernel_size shape = .error (.valueError "Image is empty")) ∧
    (morph_open cv none size iterations = .error (.valueError "Image is empty") ∧
      morph_open cv (some img) size iterations = .error (.valueError "Image is empty")) ∧
    (morph_close cv none size iterations = .error (.valueError "Image is empty") ∧
      morph_close cv (some img) size iterations = .error (.valueError "Image is empty")) ∧
    (normalize cv none mn mx = .error (.valueError "Image is empty") ∧
      normalize cv (some img) mn mx = .error (.valueError "Image is empty")) ∧
    (resize cv none factor = .error (.valueError "Image is empty") ∧
      resize cv (some img) factor = .error (.valueError "Image is empty")) ∧
    (bgr2gray cv none = .error (.valueError "Image is empty") ∧
      bgr2gray cv (some img) = .error (.valueError "Image is empty")) ∧
    (bgr2hsv cv none = .error (.valueError "Image is empty") ∧
      bgr2hsv cv (some img) = .error (.valueError "Image is empty")) ∧
    (bgr2xyz cv none = .error (.valueError "Image is empty") ∧
      bgr2xyz cv (some img) = .error (.valueError "Image is empty")) ∧
    (bgr2hls cv none = .error (.valueError "Image is empty") ∧
      bgr2hls cv (some img) = .error (.valueError "Image is empty")) ∧
    (bgr2luv cv none = .error (.valueError "Image is empty") ∧
      bgr2luv cv (some img) = .error (.valueError "Image is empty")) ∧
    (blur_gaussian cv none kernel_size sigma_x sigma_y =
        .error (.valueError "Image is empty") ∧
      blur_gaussian cv (some img) kernel_size sigma_x sigma_y =
        .error (.valueError "Image is empty")) ∧
    (blur_median cv none kernel_size = .error (.valueError "Image is empty") ∧
      blur_median cv (some img) kernel_size = .error (.valueError "Image is empty")) ∧
    (threshold_otsu cv none max_value = .error (.valueError "Image is empty") ∧
      threshold_otsu cv (some img) max_value = .error (.valueError "Image is empty")) ∧
    (threshold_binary cv none value max_value = .error (.valueError "Image is empty") ∧
      threshold_binary cv (some img) value max_value =
        .error (.valueError "Image is empty")) ∧
    (threshold_tozero cv none value max_value = .error (.valueError "Image is empty") ∧
      threshold_tozero cv (some img) value max_value =
        .error (.valueError "Image is empty")) ∧
    (threshold_otsu_tozero cv none max_value = .error (.valueError "Image is empty") ∧
      threshold_otsu_tozero cv (some img) max_value =
        .error (.valueError "Image is empty")) ∧
    (canny cv none low high = .error (.valueError "Image is empty") ∧
      canny cv (some img) low high = .error (.valueError "Image is empty")) ∧
    rotate_image cv (NDImage.d2 ([] : List (List α))) center angle scale unit =
      .ok (.d2 (cv.warpAffine []
        (cv.getRotationMatrix2D (center.x, center.y)
          (if unit = AngleUnit.RADIANS then cv.radToDeg angle else angle) scale)
        (0, 0))) := by
  refine ⟨⟨?_, ?_⟩, ⟨?_, ?_⟩, ⟨?_, ?_⟩, ⟨?_, ?_⟩, ⟨?_, ?_⟩, ⟨?_, ?_⟩, ⟨?_, ?_⟩,
    ⟨?_, ?_⟩, ⟨?_, ?_⟩, ⟨?_, ?_⟩, ⟨?_, ?_⟩, ⟨?_, ?_⟩, ⟨?_, ?_⟩, ⟨?_, ?_⟩,
    ⟨?_, ?_⟩, ⟨?_, ?_⟩, ⟨?_, ?_⟩, ?_⟩ <;>
    simp [dilate, morph_open, morph_close, normalize, resize, bgr2gray, bgr2hsv,
      bgr2xyz, bgr2hls, bgr2luv, blur_gaussian, blur_median, threshold_otsu,
      threshold_binary, threshold_tozero, threshold_otsu_tozero, canny,
      rotate_image, cols2, rows2, _error_if_image_empty, h]

/-- Witness for C8 at a concrete input (first conjunct of the instantiated
guard theorem: `dilate` on `None`). -/
theorem empty_image_guard_witness :
    dilate cv0 none 3 MorphShape.RECT = .error (.valueError "Image is empty") :=
  (empty_image_guard cv0 (NDImage.d2 []) (by decide) 3 MorphShape.RECT 3 1 0 255 2
    none none 1 255 0 1 ⟨0, 0⟩ 0 1 AngleUnit.DEGREES).1.1

/-- A concrete heap for closed evaluations: every reference holds the
two-point contour array `[[[5, 7]], [[1, 2]]]`. -/
def heap0 : Heap Int := fun _ => [[[5, 7]], [[1, 2]]]

/-- A concrete moment dictionary for closed evaluations. -/
def m0 : String → Rat := fun _ => 3

/-- A concrete contour over `heap0`. -/
def contour0 : Contour := Contour.make cv0 heap0 0 (some m0)

/-- C7: every exported operation is stateless and deterministic — each is a
pure function of its explicit arguments (for the `Contour` operations this
includes the heap of numpy arrays), so two calls with equal argument values
and equal underlying-primitive behaviour return equal results. -/
theorem operations_deterministic {α Elem RotM : Type} [Zero α] [Sub α]
    (cv cv' : Cv α Elem RotM) (hcv : cv = cv') (σ σ' : Heap α) (hσ : σ = σ')
    (image : Option (NDImage α)) (kernel_size : Int) (shape : MorphShape)
    (size : Int) (iterations : Nat) (mn mx : Int) (factor : Int)
    (sigma_x sigma_y : Option Rat) (value : Int) (max_value : Int)
    (low high : Rat) (ref : Nat) (moment : Option (String → Rat)) (c : Contour)
    (key : Key) (v : Value α) (rect : Rect α) (image3 : NDImage α)
    (center : Point) (angle scale : Rat) (unit : AngleUnit) :
    dilate cv image kernel_size shape = dilate cv' image kernel_size shape ∧
    morph_open cv image size iterations = morph_open cv' image size iterations ∧
    morph_close cv image size iterations = morph_close cv' image size iterations ∧
    normalize cv image mn mx = normalize cv' image mn mx ∧
    resize cv image factor = resize cv' image factor ∧
    bgr2gray cv image = bgr2gray cv' image ∧
    bgr2hsv cv image = bgr2hsv cv' image ∧
    bgr2xyz cv image = bgr2xyz cv' image ∧
    bgr2hls cv image = bgr2hls cv' image ∧
    bgr2luv cv image = bgr2luv cv' image ∧
    blur_gaussian cv image kernel_size sigma_x sigma_y =
      blur_gaussian cv' image kernel_size sigma_x sigma_y ∧
    blur_median cv image kernel_size = blur_median cv' image kernel_size ∧
    threshold_otsu cv image max_value = threshold_otsu cv' image max_value ∧
    threshold_binary cv image value max_value =
      threshold_binary cv' image value max_value ∧
    threshold_tozero cv image value max_value =
      threshold_tozero cv' image value max_value ∧
    threshold_otsu_tozero cv image max_value =
      threshold_otsu_tozero cv' image max_value ∧
    canny cv image low high = canny cv' image low high ∧
    Contour.make cv σ ref moment = Contour.make cv' σ' ref moment ∧
    Contour.len σ c = Contour.len σ' c ∧
    Contour.getItem σ c key = Contour.getItem σ' c key ∧
    Contour.setItem σ c key v = Contour.setItem σ' c key v ∧
    scale_contour_to_rect cv σ c rect = scale_contour_to_rect cv' σ' c rect ∧
    rotate_image cv image3 center angle scale unit =
      rotate_image cv' image3 center angle scale unit := by
  subst hcv
  subst hσ
  exact ⟨rfl, rfl, rfl, rfl, rfl, rfl, rfl, rfl, rfl, rfl, rfl, rfl, rfl, rfl,
    rfl, rfl, rfl, rfl, rfl, rfl, rfl, rfl, rfl⟩

/-- Witness for C7 at a concrete input (first conjunct of the instantiated
determinism theorem). -/
theorem operations_deterministic_witness :
    dilate cv0 (some (NDImage.d1 [5])) 3 MorphShape.RECT =
      dilate cv0 (some (NDImage.d1 [5])) 3 MorphShape.RECT :=
  (operations_deterministic cv0 cv0 rfl heap0 heap0 rfl (some (NDImage.d1 [5]))
    3 MorphShape.RECT 3 1 0 255 2 none none 1 255 0 1 0 (some m0) contour0
    (.int 0) (.scalar 9) ⟨1, 2⟩ (NDImage.d1 [5]) ⟨0, 0⟩ 0 1
    AngleUnit.DEGREES).1

/-- C6: `Contour` is a purely positional wrapper over an already-computed
points array and moment dictionary: `len` is the number of points, an
integer key returns `points[i][0]`, a 2-element key returns
`points[i][0][j]`, a key of more than 2 elements raises `ValueError`,
`area` is `moment["m00"]`, and construction with `moment=None` first
computes the moments from the points via `cv.moments`. -/
theorem contour_positional_wrapper {α Elem RotM : Type} (cv : Cv α Elem RotM)
    (σ : Heap α) (ref : Nat) (m : String → Rat) :
    Contour.len σ (Contour.make cv σ ref (some m)) = (σ.get ref).length ∧
    (Contour.make cv σ ref (some m)).moment = m ∧
    (Contour.make cv σ ref (some m)).area = m "m00" ∧
    (∀ i row p, (σ.get ref)[i]? = some row → row[0]? = some p →
      Contour.getItem σ (Contour.make cv σ ref (some m)) (.int i) = .ok (.row p)) ∧
    (∀ i j row p a, (σ.get ref)[i]? = some row → row[0]? = some p → p[j]? = some a →
      Contour.getItem σ (Contour.make cv σ ref (some m)) (.tup [i, j]) =
        .ok (.elt a)) ∧
    (∀ key : List Nat, 2 < key.length →
      Contour.getItem σ (Contour.make cv σ ref (some m)) (.tup key) =
        .error (.valueError ("Too many indices: " ++ toString key.length))) ∧
    (Contour.make cv σ ref none).moment = cv.moments (σ.get ref) ∧
    (Contour.make cv σ ref none).area = cv.moments (σ.get ref) "m00" := by
  refine ⟨rfl, rfl, rfl, ?_, ?_, ?_, rfl, rfl⟩
  · intro i row p hi h0
    simp [Contour.getItem, Contour.make, getItemPts, getRow, hi, h0]
  · intro i j row p a hi h0 hj
    simp [Contour.getItem, Contour.make, getItemPts, getTup, getElt, hi, h0, hj]
  · intro key hk
    simp [Contour.getItem, Contour.make, getItemPts, getTup, hk]

/-- Witness for C6 at a concrete input (the integer-key conjunct of the
instantiated wrapper theorem). -/
theorem contour_positional_wrapper_witness :
    Contour.getItem heap0 (Contour.make cv0 heap0 0 (some m0)) (.int 0) =
      .ok (.row [5, 7]) :=
  (contour_positional_wrapper cv0 heap0 0 m0).2.2.2.1 0 [[5, 7]] [5, 7] rfl rfl

/-- C10 counterexample: an integer-key assignment does *not* always write
and then raise `TypeError`.  Assigning the length-3 array `[1, 2, 3]` into
the 2-element slot `points[0][0]` fails numpy's broadcast-shape check:
`__setitem__` raises `ValueError` (not `TypeError`), and the points array
is left untouched — `len(key)` is never reached. -/
theorem setitem_int_claim_counterexample :
    (Contour.setItem heap0 contour0 (.int 0) (.vec [1, 2, 3])).2 =
        .error (.valueError "could not broadcast input array") ∧
    (Contour.setItem heap0 contour0 (.int 0) (.vec [1, 2, 3])).2 ≠
        .error (.typeError "object of type int has no len()") ∧
    (Contour.setItem heap0 contour0 (.int 0) (.vec [1, 2, 3])).1.get
        contour0.points = heap0.get contour0.points := by
  refine ⟨rfl, ?_, rfl⟩
  intro h
  exact PyErr.noConfusion (Except.error.inj h)

/-- C10 (amended): for every in-range integer key `k` and every assigned
value that numpy can broadcast into the 2-element slot `points[k][0]` (a
scalar, a length-1 array, or a matching-length array), the assignment
first writes the broadcast value into `points[k][0]` (visible in the
resulting heap) and then always raises `TypeError`, because the integer
branch does not return before `len(key)` is evaluated on the integer key —
so such an assignment never completes normally even though its write takes
effect; a non-broadcastable value instead raises `ValueError` from the
numpy assignment itself, with no write. -/
theorem setitem_int_writes_then_raises {α : Type} (σ : Heap α) (c : Contour)
    (k : Nat) (v : Value α) (row : List (List α)) (p newp : List α)
    (hk : (σ.get c.points)[k]? = some row) (h0 : row[0]? = some p)
    (hv : assignRow p v = .ok newp) :
    Contour.setItem σ c (.int k) v =
      (σ.set c.points ((σ.get c.points).set k (row.set 0 newp)),
        .error (.typeError "object of type int has no len()")) := by
  simp [Contour.setItem, setItemPts, setRow, hk, h0, hv]

/-- Witness for C10 at a concrete input: the scalar `9` broadcasts over
both slots of the point. -/
theorem setitem_int_writes_then_raises_witness :
    Contour.setItem heap0 contour0 (.int 1) (.scalar 9) =
      (heap0.set contour0.points
        ((heap0.get contour0.points).set 1 ([[1, 2]].set 0 [9, 9])),
        .error (.typeError "object of type int has no len()")) :=
  setitem_int_writes_then_raises heap0 contour0 1 (.scalar 9) [[1, 2]] [1, 2]
    [9, 9] rfl rfl rfl

/-- The shape invariant of contour points arrays produced by
`cv.findContour`: every entry is a single point nested as `[[x, y]]`
(array shape `N × 1 × 2`). -/
def IsPointsArray {α : Type} (pts : Points α) : Prop :=
  ∀ p ∈ pts, ∃ x y, p = [[x, y]]

/-- Translation of one `[[x, y]]` entry by `(-rect.x, -rect.y)`. -/
def translatePoint {α : Type} [Sub α] (rect : Rect α) (p : List (List α)) :
    List (List α) :=
  p.map fun q =>
    match q with
    | [x, y] => [x - rect.x, y - rect.y]
    | q => q

/-- Reading a reference just written returns the written array. -/
@[simp] theorem Heap.get_set_self {α : Type} (σ : Heap α) (r : Nat) (pts : Points α) :
    (σ.set r pts).get r = pts := by
  simp [Heap.set, Heap.get]

/-- Writing a reference leaves every other reference unchanged. -/
theorem Heap.get_set_ne {α : Type} (σ : Heap α) (r j : Nat) (pts : Points α)
    (h : j ≠ r) : (σ.set r pts).get j = σ.get j := by
  simp [Heap.set, Heap.get, h]

/-- Two consecutive writes to the same reference keep only the second. -/
@[simp] theorem Heap.set_set {α : Type} (σ : Heap α) (r : Nat) (a b : Points α) :
    (σ.set r a).set r b = σ.set r b := by
  funext j
  by_cases hj : j = r <;> simp [Heap.set, hj]

/-- Writing back the value just read is a no-op. -/
theorem Heap.set_get_self {α : Type} (σ : Heap α) (r : Nat) :
    σ.set r (σ.get r) = σ := by
  funext j
  by_cases hj : j = r <;> simp [Heap.set, Heap.get, hj]

/-- Indexing an append right at the boundary hits the first appended cell. -/
@[simp] theorem getElem?_append_length {α : Type} (l₁ : List α) (a : α) (t : List α) :
    (l₁ ++ a :: t)[l₁.length]? = some a := by
  induction l₁ with
  | nil => simp
  | cons x xs ih => simpa using ih

/-- Setting an append right at the boundary replaces the first appended cell. -/
@[simp] theorem set_append_length {α : Type} (l₁ : List α) (a b : α) (t : List α) :
    (l₁ ++ a :: t).set l₁.length b = l₁ ++ b :: t := by
  induction l₁ with
  | nil => simp
  | cons x xs ih => simp [ih]

/-- A `pure` in the `Except` monad is a normal result. -/
@[simp] theorem except_pure {ε β : Type} (a : β) :
    (pure a : Except ε β) = Except.ok a := rfl

/-- Evaluation of `getTup` when all three lookups succeed. -/
theorem getTup_eval {α : Type} (pts : Points α) (i j : Nat) (row : List (List α))
    (p : List α) (a : α) (hi : pts[i]? = some row) (h0 : row[0]? = some p)
    (hj : p[j]? = some a) : getTup pts [i, j] = .ok a := by
  simp [getTup, getElt, hi, h0, hj]

/-- Evaluation of `setTup` on a scalar when all three lookups succeed. -/
theorem setTup_eval {α : Type} (pts : Points α) (i j : Nat) (v : α)
    (row : List (List α)) (p : List α) (old : α) (hi : pts[i]? = some row)
    (h0 : row[0]? = some p) (hj : p[j]? = some old) :
    setTup pts [i, j] (.scalar v) = (pts.set i (row.set 0 (p.set j v)), .ok ()) := by
  simp [setTup, setElt, hi, h0, hj]

/-- Evaluation of one `scale_contour_to_rect` loop iteration at index
`l₁.length` when the array holds `[[x, y]]` there: both coordinates are
translated in place. -/
theorem scaleStep_eval {α : Type} [Sub α] (rect : Rect α) (c : Contour) (σ : Heap α)
    (l₁ : Points α) (x y : α) (t : Points α)
    (hσ : σ.get c.points = l₁ ++ [[x, y]] :: t) :
    scaleStep rect c σ l₁.length =
      .ok (σ.set c.points (l₁ ++ [[x - rect.x, y - rect.y]] :: t)) := by
  have hi : (l₁ ++ [[x, y]] :: t)[l₁.length]? = some [[x, y]] :=
    getElem?_append_length l₁ [[x, y]] t
  have g0 : getTup (l₁ ++ [[x, y]] :: t) [l₁.length, 0] = .ok x :=
    getTup_eval _ _ _ _ _ _ hi rfl rfl
  have s0 : setTup (l₁ ++ [[x, y]] :: t) [l₁.length, 0] (.scalar (x - rect.x)) =
      ((l₁ ++ [[x, y]] :: t).set l₁.length
        ([[x, y]].set 0 ([x, y].set 0 (x - rect.x))), .ok ()) :=
    setTup_eval _ _ _ _ _ _ _ hi rfl rfl
  simp only [List.set_cons_zero, set_append_length] at s0
  have hi2 : (l₁ ++ [[x - rect.x, y]] :: t)[l₁.length]? = some [[x - rect.x, y]] :=
    getElem?_append_length l₁ [[x - rect.x, y]] t
  have g1 : getTup (l₁ ++ [[x - rect.x, y]] :: t) [l₁.length, 1] = .ok y :=
    getTup_eval _ _ _ _ _ _ hi2 rfl rfl
  have s1 : setTup (l₁ ++ [[x - rect.x, y]] :: t) [l₁.length, 1]
      (.scalar (y - rect.y)) =
      ((l₁ ++ [[x - rect.x, y]] :: t).set l₁.length
        ([[x - rect.x, y]].set 0 ([x - rect.x, y].set 1 (y - rect.y))), .ok ()) :=
    setTup_eval _ _ _ _ _ _ _ hi2 rfl rfl
  simp only [List.set_cons_zero, List.set_cons_succ, set_append_length] at s1
  simp only [scaleStep, Contour.setItem, setItemPts, hσ, g0, s0,
    Heap.get_set_self, g1, s1, except_bind_ok, except_pure, Heap.set_set]

/-- Evaluation of the whole `scale_contour_to_rect` loop over the index
range starting after an already-processed prefix `l₁`. -/
theorem scaleLoop_eval {α : Type} [Sub α] (rect : Rect α) (c : Contour) :
    ∀ (l₂ l₁ : Points α) (σ : Heap α), IsPointsArray l₂ →
      σ.get c.points = l₁ ++ l₂ →
      scaleLoop rect c (List.range' l₁.length l₂.length) σ =
        .ok (σ.set c.points (l₁ ++ l₂.map (translatePoint rect)))
  | [], l₁, σ, _, hσ => by
    simp only [List.append_nil] at hσ
    simp only [List.length_nil, List.range'_zero, List.map_nil, List.append_nil,
      scaleLoop]
    rw [← hσ, Heap.set_get_self]
  | p :: t, l₁, σ, hshape, hσ => by
    obtain ⟨x, y, rfl⟩ := hshape p (List.mem_cons_self p t)
    rw [List.length_cons, List.range'_succ, scaleLoop]
    rw [scaleStep_eval rect c σ l₁ x y t hσ]
    rw [except_bind_ok]
    have ht : IsPointsArray t := fun q hq => hshape q (List.mem_cons_of_mem _ hq)
    have hlen : l₁.length + 1 = (l₁ ++ [[[x - rect.x, y - rect.y]]]).length := by
      simp
    have hget : (σ.set c.points (l₁ ++ [[x - rect.x, y - rect.y]] :: t)).get c.points =
        (l₁ ++ [[[x - rect.x, y - rect.y]]]) ++ t := by
      simp
    rw [hlen, scaleLoop_eval rect c t (l₁ ++ [[[x - rect.x, y - rect.y]]]) _ ht hget]
    simp [translatePoint]

/-- Full evaluation of `scale_contour_to_rect` on a well-shaped contour:
the result is the heap with the shared points array translated in place,
paired with the rebuilt wrapper. -/
theorem scale_contour_to_rect_eval {α Elem RotM : Type} [Sub α] (cv : Cv α Elem RotM)
    (σ : Heap α) (c : Contour) (rect : Rect α)
    (h : IsPointsArray (σ.get c.points)) :
    scale_contour_to_rect cv σ c rect =
      .ok (σ.set c.points ((σ.get c.points).map (translatePoint rect)),
        Contour.make cv σ c.points (some c.moment)) := by
  have key := scaleLoop_eval rect
    { points := c.points, moment := c.moment, area := c.moment "m00" }
    (σ.get c.points) [] σ h (by simp)
  simp only [List.length_nil, List.nil_append] at key
  simp [scale_contour_to_rect, Contour.len, Contour.make, List.range_eq_range', key]

/-- A concrete rectangle for closed evaluations. -/
def rect0 : Rect Int := { x := 1, y := 2 }

/-- The concrete contour array in `heap0` is well shaped. -/
theorem heap0_points_shape : IsPointsArray (heap0.get contour0.points) := by
  intro p hp
  simp [heap0, contour0, Contour.make, Heap.get] at hp
  rcases hp with rfl | rfl
  · exact ⟨5, 7, rfl⟩
  · exact ⟨1, 2, rfl⟩

/-- C2: `scale_contour_to_rect(c, rect)` returns a `Contour` whose `i`-th
point is the `i`-th point of `c` translated by `(-rect.x, -rect.y)` and
whose moment dictionary equals `c`'s moment dictionary. -/
theorem scale_contour_to_rect_spec {α Elem RotM : Type} [Sub α] (cv : Cv α Elem RotM)
    (σ : Heap α) (c : Contour) (rect : Rect α)
    (h : IsPointsArray (σ.get c.points)) :
    ∃ σ2 c2, scale_contour_to_rect cv σ c rect = .ok (σ2, c2) ∧
      c2.moment = c.moment ∧
      ∀ (i : Nat) (x y : α), (σ.get c.points)[i]? = some [[x, y]] →
        (σ2.get c2.points)[i]? = some [[x - rect.x, y - rect.y]] := by
  refine ⟨_, _, scale_contour_to_rect_eval cv σ c rect h, rfl, ?_⟩
  intro i x y hi
  simp [Contour.make, Heap.get_set_self, List.getElem?_map, hi, translatePoint]

/-- Witness for C2 at a concrete input. -/
theorem scale_contour_to_rect_spec_witness :
    ∃ σ2 c2, scale_contour_to_rect cv0 heap0 contour0 rect0 = .ok (σ2, c2) ∧
      c2.moment = contour0.moment ∧
      ∀ (i : Nat) (x y : Int), (heap0.get contour0.points)[i]? = some [[x, y]] →
        (σ2.get c2.points)[i]? = some [[x - rect0.x, y - rect0.y]] :=
  scale_contour_to_rect_spec cv0 heap0 contour0 rect0 heap0_points_shape

/-- C9: `scale_contour_to_rect` does not leave its input unchanged — the
returned `Contour` holds the *same* points array (reference) as the
argument, that shared array ends up translated by `(-rect.x, -rect.y)`,
every other array of the heap is untouched, and the moment dictionary and
area of the result are the argument's. -/
theorem scale_contour_shares_array {α Elem RotM : Type} [Sub α] (cv : Cv α Elem RotM)
    (σ : Heap α) (c : Contour) (rect : Rect α)
    (h : IsPointsArray (σ.get c.points)) :
    ∃ σ2 c2, scale_contour_to_rect cv σ c rect = .ok (σ2, c2) ∧
      c2.points = c.points ∧
      σ2.get c.points = (σ.get c.points).map (translatePoint rect) ∧
      (∀ j, j ≠ c.points → σ2.get j = σ.get j) ∧
      c2.moment = c.moment ∧ c2.area = c.moment "m00" := by
  refine ⟨_, _, scale_contour_to_rect_eval cv σ c rect h, rfl, ?_, ?_, rfl, rfl⟩
  · simp
  · intro j hj
    exact Heap.get_set_ne σ c.points j _ hj

/-- Witness for C9 at a concrete input. -/
theorem scale_contour_shares_array_witness :
    ∃ σ2 c2, scale_contour_to_rect cv0 heap0 contour0 rect0 = .ok (σ2, c2) ∧
      c2.points = contour0.points ∧
      σ2.get contour0.points =
        (heap0.get contour0.points).map (translatePoint rect0) ∧
      (∀ j, j ≠ contour0.points → σ2.get j = heap0.get j) ∧
      c2.moment = contour0.moment ∧ c2.area = contour0.moment "m00" :=
  scale_contour_shares_array cv0 heap0 contour0 rect0 heap0_points_shape

/-- A rectangular 2-d array: `h` rows, each of length `w`. -/
def Rect2 {α : Type} (img : List (List α)) (h w : Nat) : Prop :=
  img.length = h ∧ ∀ row ∈ img, row.length = w

/-- A rectangular 3-d array: `h` rows of `w` pixels of `c` channels. -/
def Rect3 {α : Type} (img : List (List (List α))) (h w c : Nat) : Prop :=
  img.length = h ∧ ∀ row ∈ img, row.length = w ∧ ∀ px ∈ row, px.length = c

/-- Reading back a channel value just written into a pixel. -/
theorem getD_set_self {α : Type} (px : List α) (k : Nat) (v d : α)
    (hk : k < px.length) : (px.set k v).getD k d = v := by
  simp [List.getD_eq_getElem?_getD, List.getElem?_set_self hk]

/-- Writing one channel of a pixel leaves the other channels unchanged. -/
theorem getD_set_ne {α : Type} (px : List α) (k i : Nat) (v d : α) (h : k ≠ i) :
    (px.set k v).getD i d = px.getD i d := by
  simp [List.getD_eq_getElem?_getD, List.getElem?_set_ne h]

/-- Row level: writing channel `k` of every pixel of a row and reading
channel `k` back yields the written row of values. -/
theorem row_channel_set_self {α : Type} [Zero α] (C k : Nat) (hk : k < C) :
    ∀ (row : List (List α)) (crow : List α), row.length = crow.length →
      (∀ px ∈ row, px.length = C) →
      (((row.zip crow).map fun pv => pv.1.set k pv.2).map fun px => px.getD k 0) =
        crow
  | [], [], _, _ => rfl
  | [], _ :: _, hlen, _ => by simp at hlen
  | _ :: _, [], hlen, _ => by simp at hlen
  | a :: r, b :: cr, hlen, hpx => by
    simp only [List.zip_cons_cons, List.map_cons]
    have ha : a.length = C := hpx a (List.mem_cons_self a r)
    rw [getD_set_self a k b 0 (by rw [ha]; exact hk)]
    rw [row_channel_set_self C k hk r cr (by simpa using hlen)
      (fun px hp => hpx px (List.mem_cons_of_mem a hp))]

/-- Row level: writing channel `k` does not change channel `i ≠ k`. -/
theorem row_channel_set_ne {α : Type} [Zero α] (k i : Nat) (hik : k ≠ i) :
    ∀ (row : List (List α)) (crow : List α), row.length = crow.length →
      (((row.zip crow).map fun pv => pv.1.set k pv.2).map fun px => px.getD i 0) =
        row.map fun px => px.getD i 0
  | [], [], _ => rfl
  | [], _ :: _, hlen => by simp at hlen
  | _ :: _, [], hlen => by simp at hlen
  | a :: r, b :: cr, hlen => by
    simp only [List.zip_cons_cons, List.map_cons]
    rw [getD_set_ne a k i b 0 hik,
      row_channel_set_ne k i hik r cr (by simpa using hlen)]

/-- Row level: writing a channel preserves the row's shape. -/
theorem row_set_shape {α : Type} (C k : Nat) (row : List (List α)) (crow : List α)
    (hlen : row.length = crow.length) (hpx : ∀ px ∈ row, px.length = C) :
    (((row.zip crow).map fun pv => pv.1.set k pv.2).length = row.length ∧
      ∀ px ∈ (row.zip crow).map fun pv => pv.1.set k pv.2, px.length = C) := by
  constructor
  · simp [List.length_zip, hlen]
  · intro px hp
    simp only [List.mem_map] at hp
    obtain ⟨pv, hpv, rfl⟩ := hp
    have hm := List.of_mem_zip hpv
    simp [hpx pv.1 hm.1]

/-- `copy[..., k] = ch` preserves the 3-d shape. -/
theorem setChannel_rect3 {α : Type} (st : List (List (List α)))
    (ch : List (List α)) (H W C k : Nat) (hst : Rect3 st H W C)
    (hch : Rect2 ch H W) : Rect3 (setChannel st k ch) H W C := by
  obtain ⟨hstL, hstR⟩ := hst
  obtain ⟨hchL, hchR⟩ := hch
  constructor
  · simp [setChannel, List.length_zip, hstL, hchL]
  · intro row hrow
    simp only [setChannel, List.mem_map] at hrow
    obtain ⟨rc, hrc, rfl⟩ := hrow
    have hm := List.of_mem_zip hrc
    have h1 := hstR rc.1 hm.1
    have h2 := hchR rc.2 hm.2
    have h3 := row_set_shape C k rc.1 rc.2 (by rw [h1.1, h2]) h1.2
    exact ⟨by rw [h3.1, h1.1], h3.2⟩

/-- Reading back the channel just written by `copy[..., k] = ch`. -/
theorem channel_setChannel_self {α : Type} [Zero α] (W C k : Nat) (hk : k < C) :
    ∀ (st : List (List (List α))) (ch : List (List α)), st.length = ch.length →
      (∀ row ∈ st, row.length = W ∧ ∀ px ∈ row, px.length = C) →
      (∀ crow ∈ ch, crow.length = W) →
      channel (setChannel st k ch) k = ch
  | [], [], _, _, _ => rfl
  | [], _ :: _, hlen, _, _ => by simp at hlen
  | _ :: _, [], hlen, _, _ => by simp at hlen
  | a :: st, b :: ch, hlen, hst, hch => by
    have ha := hst a (List.mem_cons_self a st)
    have hb := hch b (List.mem_cons_self b ch)
    simp only [setChannel, channel, List.zip_cons_cons, List.map_cons]
    congr 1
    · exact row_channel_set_self C k hk a b (by rw [ha.1, hb]) ha.2
    · exact channel_setChannel_self W C k hk st ch (by simpa using hlen)
        (fun r hr => hst r (List.mem_cons_of_mem a hr))
        (fun r hr => hch r (List.mem_cons_of_mem b hr))

/-- `copy[..., k] = ch` does not change channel `i ≠ k`. -/
theorem channel_setChannel_ne {α : Type} [Zero α] (W k i : Nat) (hik : k ≠ i) :
    ∀ (st : List (List (List α))) (ch : List (List α)), st.length = ch.length →
      (∀ row ∈ st, row.length = W) → (∀ crow ∈ ch, crow.length = W) →
      channel (setChannel st k ch) i = channel st i
  | [], [], _, _, _ => rfl
  | [], _ :: _, hlen, _, _ => by simp at hlen
  | _ :: _, [], hlen, _, _ => by simp at hlen
  | a :: st, b :: ch, hlen, hst, hch => by
    have ha := hst a (List.mem_cons_self a st)
    have hb := hch b (List.mem_cons_self b ch)
    simp only [setChannel, channel, List.zip_cons_cons, List.map_cons]
    congr 1
    · exact row_channel_set_ne k i hik a b (by rw [ha, hb])
    · exact channel_setChannel_ne W k i hik st ch (by simpa using hlen)
        (fun r hr => hst r (List.mem_cons_of_mem a hr))
        (fun r hr => hch r (List.mem_cons_of_mem b hr))

/-- The channel loop of `rotate_image`: after folding the writes of
channels `0, …, k-1`, the copy keeps its shape and channel `i < k` holds
the `i`-th warp result. -/
theorem rotate_fold_spec {α : Type} [Zero α] (warp : Nat → List (List α))
    (H W C : Nat) (hw : ∀ i, Rect2 (warp i) H W) :
    ∀ (k : Nat), k ≤ C → ∀ st, Rect3 st H W C →
      Rect3 ((List.range k).foldl (fun copy i => setChannel copy i (warp i)) st)
          H W C ∧
      ∀ i < k,
        channel ((List.range k).foldl (fun copy i => setChannel copy i (warp i)) st)
          i = warp i := by
  intro k
  induction k with
  | zero =>
    intro _ st hst
    exact ⟨hst, fun i hi => absurd hi (Nat.not_lt_zero i)⟩
  | succ n ih =>
    intro hk st hst
    have hn := ih (Nat.le_of_succ_le hk) st hst
    rw [List.range_succ, List.foldl_append, List.foldl_cons, List.foldl_nil]
    constructor
    · exact setChannel_rect3 _ _ H W C n hn.1 (hw n)
    · intro i hi
      by_cases hin : i = n
      · subst hin
        exact channel_setChannel_self W C i (Nat.lt_of_succ_le hk) _ _
          (by rw [hn.1.1, (hw i).1]) hn.1.2 (hw i).2
      · rw [channel_setChannel_ne W n i (fun h => hin h.symm) _ _
          (by rw [hn.1.1, (hw n).1]) (fun r hr => (hn.1.2 r hr).1) (hw n).2]
        exact hn.2 i (Nat.lt_of_le_of_ne (Nat.le_of_lt_succ hi) hin)

/-- For a nonempty rectangular 3-d image, `shape[1]` is the common row
length. -/
theorem cols3_eq {α : Type} (img : List (List (List α))) (H W C : Nat)
    (hH : 0 < H) (h : Rect3 img H W C) : cols3 img = W := by
  cases img with
  | nil =>
    rw [← h.1] at hH
    exact absurd hH (by simp)
  | cons r t => exact (h.2 r (List.mem_cons_self r t)).1

/-- For a nonempty rectangular 3-d image, the channel count of its
zero-initialised copy is the image's channel count. -/
theorem chans3_zeros3_eq {α : Type} [Zero α] (img : List (List (List α)))
    (H W C : Nat) (hH : 0 < H) (hW : 0 < W) (h : Rect3 img H W C) :
    chans3 (zeros3 img) = C := by
  cases img with
  | nil =>
    rw [← h.1] at hH
    exact absurd hH (by simp)
  | cons r t =>
    have hr := h.2 r (List.mem_cons_self r t)
    cases r with
    | nil =>
      rw [← hr.1] at hW
      exact absurd hW (by simp)
    | cons px pr =>
      have hpx := hr.2 px (List.mem_cons_self px pr)
      simp [chans3, zeros3, hpx]

/-- `np.zeros_like` preserves the 3-d shape. -/
theorem zeros3_rect3 {α : Type} [Zero α] (img : List (List (List α)))
    (H W C : Nat) (h : Rect3 img H W C) : Rect3 (zeros3 img) H W C := by
  obtain ⟨h1, h2⟩ := h
  refine ⟨by simpa [zeros3] using h1, ?_⟩
  intro row hrow
  simp only [zeros3, List.mem_map] at hrow
  obtain ⟨r, hr, rfl⟩ := hrow
  have hrw := h2 r hr
  refine ⟨by simpa using hrw.1, ?_⟩
  intro px hpx
  simp only [List.mem_map] at hpx
  obtain ⟨p, hp, rfl⟩ := hpx
  simpa using hrw.2 p hp

/-- C1: `rotate_image` builds one rotation matrix from the center, the
(possibly radians-to-degrees converted) angle and the scale; on a
(nonempty rectangular) 3-d image it returns an output of the same shape
whose every channel `i < C` is `cv.warpAffine` of input channel `i` with
that same matrix and destination size `(width, height)`; on a 2-d image it
returns `cv.warpAffine` of the whole image; on any other dimensionality it
raises `ValueError`. -/
theorem rotate_image_spec {α Elem RotM : Type} [Zero α] (cv : Cv α Elem RotM)
    (center : Point) (angle scale : Rat) (unit : AngleUnit)
    (hwa : ∀ (src : List (List α)) (M : RotM) (wh : Nat × Nat),
      Rect2 (cv.warpAffine src M wh) wh.2 wh.1) :
    (∀ (img : List (List (List α))) (H W C : Nat), 0 < H → 0 < W →
      Rect3 img H W C →
      ∃ out, rotate_image cv (NDImage.d3 img) center angle scale unit =
          .ok (.d3 out) ∧
        Rect3 out H W C ∧
        ∀ i < C, channel out i =
          cv.warpAffine (channel img i)
            (cv.getRotationMatrix2D (center.x, center.y)
              (if unit = AngleUnit.RADIANS then cv.radToDeg angle else angle) scale)
            (W, H)) ∧
    (∀ img2 : List (List α),
      rotate_image cv (NDImage.d2 img2) center angle scale unit =
        .ok (.d2 (cv.warpAffine img2
          (cv.getRotationMatrix2D (center.x, center.y)
            (if unit = AngleUnit.RADIANS then cv.radToDeg angle else angle) scale)
          (cols2 img2, rows2 img2)))) ∧
    (∀ data : List α,
      rotate_image cv (NDImage.d1 data) center angle scale unit =
        .error (.valueError "Image must have 2 or 3 dimensions.")) ∧
    (∀ n s : Nat,
      rotate_image cv (NDImage.dhi n s) center angle scale unit =
        .error (.valueError "Image must have 2 or 3 dimensions.")) := by
  refine ⟨?_, fun img2 => rfl, fun data => rfl, fun n s => rfl⟩
  intro img H W C hH hW hr
  have hcol : cols3 img = W := cols3_eq img H W C hH hr
  have hrow : rows3 img = H := hr.1
  have hchn : chans3 (zeros3 img) = C := chans3_zeros3_eq img H W C hH hW hr
  have hz : Rect3 (zeros3 img) H W C := zeros3_rect3 img H W C hr
  have main := rotate_fold_spec
    (fun i => cv.warpAffine (channel img i)
      (cv.getRotationMatrix2D (center.x, center.y)
        (if unit = AngleUnit.RADIANS then cv.radToDeg angle else angle) scale)
      (W, H))
    H W C (fun i => hwa _ _ _) C (Nat.le_refl C) (zeros3 img) hz
  refine ⟨_, ?_, main.1, main.2⟩
  simp only [rotate_image, hcol, hrow, hchn]

/-- The concrete `warpAffine` of `cv0` returns arrays of the requested
destination size. -/
theorem cv0_warpAffine_rect2 :
    ∀ (src : List (List Int)) (M : Unit) (wh : Nat × Nat),
      Rect2 (cv0.warpAffine src M wh) wh.2 wh.1 := by
  intro src M wh
  constructor
  · simp [cv0]
  · intro row hrow
    rw [List.eq_of_mem_replicate hrow]
    simp

/-- A concrete 2×2 image with 2 channels, for closed evaluations. -/
def img3 : List (List (List Int)) := [[[1, 2], [3, 4]], [[5, 6], [7, 8]]]

/-- Witness for C1 at a concrete input (the 3-d conjunct of the
instantiated rotation theorem). -/
theorem rotate_image_spec_witness :
    ∃ out, rotate_image cv0 (NDImage.d3 img3) ⟨0, 0⟩ 1 1 AngleUnit.DEGREES =
        .ok (.d3 out) ∧
      Rect3 out 2 2 2 ∧
      ∀ i < 2, channel out i =
        cv0.warpAffine (channel img3 i)
          (cv0.getRotationMatrix2D ((0 : Rat), (0 : Rat))
            (if AngleUnit.DEGREES = AngleUnit.RADIANS then cv0.radToDeg 1 else 1) 1)
          (2, 2) :=
  (rotate_image_spec cv0 ⟨0, 0⟩ 1 1 AngleUnit.DEGREES cv0_warpAffine_rect2).1
    img3 2 2 2 (by decide) (by decide) (by unfold Rect3; decide)

end cvhelper
